import Mathlib

/-!
Shallow embedding of the florist-facing views of the FlowerShop application
(`floristapp/views.py`) over the data model of `flowerapp/models.py`.

Strings are modelled as `List Char` (Python strings are sequences of code
points, and the source slices them by code-point index).  The relational
store is modelled as lists of records; a view call is a pure function from
the store (and the requesting user) to a result carrying the store after the
call, the log of row writes the call issued, and the HTTP-level response.
-/

abbrev Str := List Char

/-- `Order.Status` text choices from `flowerapp/models.py`. -/
inductive Status where
  | created
  | composing
  | composed
  | delivering
  | delivered
  | cancelled
deriving DecidableEq, Repr

/-- The requesting user as the access check sees it: only `is_staff` matters. -/
structure AuthUser where
  is_staff : Bool
deriving DecidableEq, Repr

/-- `Bouquet` rows (fields the florist views touch, plus representative rest). -/
structure Bouquet where
  id : Nat
  name : Str
  description : Str
  price : Int
  is_recommended : Bool
deriving DecidableEq, Repr

/-- `FlowerShop` rows. -/
structure FlowerShop where
  id : Nat
  address : Str
  phone : Str
deriving DecidableEq, Repr

/-- `FlowerShopCatalogItem` rows: a (shop, bouquet) link with an in-stock flag. -/
structure FlowerShopCatalogItem where
  id : Nat
  flower_shop_id : Nat
  bouquet_id : Nat
  availability : Bool
deriving DecidableEq, Repr

/-- `Order` rows.  Foreign keys are stored ids; nullable columns are `Option`. -/
structure Order where
  id : Nat
  bouquet : Nat
  price : Int
  client_name : Str
  phone : Str
  delivery_address : Str
  delivery_window : Option Nat
  email : Str
  paid : Bool
  comment : Str
  created_at : Nat
  composed_at : Option Nat
  delivered_at : Option Nat
  status : Status
  florist : Option Nat
  courier : Option Nat
deriving DecidableEq, Repr

/-- The relational store the views read and write. -/
structure Store where
  shops : List FlowerShop
  bouquets : List Bouquet
  catalog : List FlowerShopCatalogItem
  orders : List Order
deriving DecidableEq, Repr

/-- `is_florist(user)` from `floristapp/views.py`: just the staff flag. -/
def is_florist (user : AuthUser) : Bool :=
  user.is_staff

/-- `user_passes_test(is_florist, ...)` evaluates the test on `request.user`;
an unauthenticated request carries `AnonymousUser`, whose `is_staff` is
`False`, so the test fails for it. -/
def gate (caller : Option AuthUser) : Bool :=
  match caller with
  | none => false
  | some user => is_florist user

/-- Code-point lexicographic string comparison, used to model the ascending
`order_by` clauses. -/
def strLe : Str → Str → Bool
  | [], _ => true
  | _ :: _, [] => false
  | a :: as, b :: bs => if a < b then true else if b < a then false else strLe as bs

/-- Python `s.startswith(p)` on code-point sequences. -/
def strStartsWith : Str → Str → Bool
  | _, [] => true
  | [], _ :: _ => false
  | c :: cs, p :: ps => c == p && strStartsWith cs ps

/-- Python `s.strip()`: remove whitespace from both ends. -/
def pyStrip (s : Str) : Str :=
  ((s.dropWhile Char.isWhitespace).reverse.dropWhile Char.isWhitespace).reverse

/-- The literal city marker stripped by `view_availability` ("Красноярск," —
eleven code points, matching the hard-coded slice `address[11:]`). -/
def cityLit : Str := "Красноярск,".toList

/-- Display label of a shop: `address[11:].strip()` when the address starts
with the city literal, else the address verbatim. -/
def shopLabel (address : Str) : Str :=
  if strStartsWith address cityLit then pyStrip (address.drop 11) else address

/-- `FlowerShop.objects.order_by('address')`. -/
def orderedShops (store : Store) : List FlowerShop :=
  store.shops.mergeSort (fun a b => strLe a.address b.address)

/-- `Bouquet.objects.order_by('name')`. -/
def orderedBouquets (store : Store) : List Bouquet :=
  store.bouquets.mergeSort (fun a b => strLe a.name b.name)

/-- `bouquet.catalog_items.all()`: the catalog rows of one bouquet. -/
def catalog_items (store : Store) (bouquet : Bouquet) : List FlowerShopCatalogItem :=
  store.catalog.filter (fun item => item.bouquet_id == bouquet.id)

/-- `.get(key, default)` on the dict comprehension
`{item.flower_shop_id: item.availability for item in items}`: the last item
with the key wins, a missing key yields the default. -/
def dictGet (items : List FlowerShopCatalogItem) (key : Nat) (dflt : Bool) : Bool :=
  match items.reverse.find? (fun item => item.flower_shop_id == key) with
  | some item => item.availability
  | none => dflt

/-- The rendering context `view_availability` hands to its template. -/
structure AvailabilityPage where
  bouquets_availability : List (Bouquet × List Bool)
  shops_addresses : List Str
deriving DecidableEq, Repr

/-- Body of `view_availability`: shops ordered by address and labelled, and
per bouquet (ordered by name) one availability boolean per shop. -/
def view_availability (store : Store) : AvailabilityPage :=
  let flower_shops := orderedShops store
  let shops_addresses := flower_shops.map (fun flower_shop => shopLabel flower_shop.address)
  let bouquets := orderedBouquets store
  let bouquets_availability := bouquets.map (fun bouquet =>
    (bouquet, flower_shops.map (fun flower_shop =>
      dictGet (catalog_items store bouquet) flower_shop.id false)))
  { bouquets_availability := bouquets_availability, shops_addresses := shops_addresses }

/-- The fixed tuple the sort key and the listing filter are built from. -/
def activeStatuses : List Status := [Status.created, Status.composing, Status.composed]

/-- `[created, composing, composed].index(x.status)`: position of the status
in the fixed tuple (first match). -/
def statusIndex (s : Status) : Nat :=
  activeStatuses.findIdx (fun t => t == s)

/-- The comparison induced by Python's `sorted` with key
`(statusIndex(status), id)`: lexicographic on the pair. -/
def orderLe (a b : Order) : Bool :=
  statusIndex a.status < statusIndex b.status ||
    (statusIndex a.status == statusIndex b.status && a.id ≤ b.id)

/-- Body of `view_orders`'s query: filter to the three active statuses, then
stable-sort by `(status position, id)`. -/
def list_active_orders (orders : List Order) : List Order :=
  (orders.filter (fun o => activeStatuses.contains o.status)).mergeSort orderLe

/-- The projection `serialize_order` builds for the template. -/
structure OrderSummary where
  id : Nat
  status : Status
  bouquet_name : Option Str
  client_name : Str
  phone : Str
  delivery_address : Str
  delivery_window : Option Nat
  comment : Str
  price : Int
deriving DecidableEq, Repr

/-- `serialize_order(order)`: project the listed fields, resolving the
bouquet name through the bouquet table. -/
def serialize_order (bouquets : List Bouquet) (order : Order) : OrderSummary :=
  { id := order.id
    status := order.status
    bouquet_name := (bouquets.find? (fun b => b.id == order.bouquet)).map (fun b => b.name)
    client_name := order.client_name
    phone := order.phone
    delivery_address := order.delivery_address
    delivery_window := order.delivery_window
    comment := order.comment
    price := order.price }

/-- HTTP-level outcome of a view call. -/
inductive ViewResponse where
  | redirectLogin
  | notFound
  | availabilityPage (page : AvailabilityPage)
  | ordersPage (orders : List OrderSummary)
deriving DecidableEq, Repr

/-- One row write issued against the store: the row's pk and the
`update_fields` the save was restricted to. -/
structure SaveLog where
  pk : Nat
  update_fields : List String
deriving DecidableEq, Repr

/-- Result of one view call: store afterwards, writes issued, response. -/
structure ViewResult where
  store : Store
  writes : List SaveLog
  response : ViewResponse
deriving DecidableEq, Repr

/-- The availability view with its `user_passes_test` decorator: failing the
test redirects to login and touches nothing. -/
def view_availability_view (caller : Option AuthUser) (store : Store) : ViewResult :=
  if gate caller then
    { store := store, writes := [], response := ViewResponse.availabilityPage (view_availability store) }
  else
    { store := store, writes := [], response := ViewResponse.redirectLogin }

/-- The serialized listing `view_orders` renders. -/
def view_orders_page (store : Store) : List OrderSummary :=
  (list_active_orders store.orders).map (serialize_order store.bouquets)

/-- The orders view with its `user_passes_test` decorator. -/
def view_orders_view (caller : Option AuthUser) (store : Store) : ViewResult :=
  if gate caller then
    { store := store, writes := [], response := ViewResponse.ordersPage (view_orders_page store) }
  else
    { store := store, writes := [], response := ViewResponse.redirectLogin }

/-- The `if/elif` chain of `change_status` computing the new in-memory status. -/
def advance (s : Status) : Status :=
  if s = Status.created then Status.composing
  else if s = Status.composing then Status.composed
  else s

/-- Django `instance.save(update_fields=fields)`: only the named columns of
the stored row take the in-memory instance's values; the pk and every other
column keep their stored values. -/
def applyUpdateFields (db mem : Order) (fields : List String) : Order where
  id := db.id
  bouquet := if "bouquet" ∈ fields then mem.bouquet else db.bouquet
  price := if "price" ∈ fields then mem.price else db.price
  client_name := if "client_name" ∈ fields then mem.client_name else db.client_name
  phone := if "phone" ∈ fields then mem.phone else db.phone
  delivery_address := if "delivery_address" ∈ fields then mem.delivery_address else db.delivery_address
  delivery_window := if "delivery_window" ∈ fields then mem.delivery_window else db.delivery_window
  email := if "email" ∈ fields then mem.email else db.email
  paid := if "paid" ∈ fields then mem.paid else db.paid
  comment := if "comment" ∈ fields then mem.comment else db.comment
  created_at := if "created_at" ∈ fields then mem.created_at else db.created_at
  composed_at := if "composed_at" ∈ fields then mem.composed_at else db.composed_at
  delivered_at := if "delivered_at" ∈ fields then mem.delivered_at else db.delivered_at
  status := if "status" ∈ fields then mem.status else db.status
  florist := if "florist" ∈ fields then mem.florist else db.florist
  courier := if "courier" ∈ fields then mem.courier else db.courier

/-- `change_status(request, order_id)`.  Note the source has NO
`user_passes_test` decorator on this view: the lookup and the save run for
any caller, and only the final `view_orders(request)` call (which is
decorated) decides between the listing and a login redirect. -/
def change_status_view (caller : Option AuthUser) (store : Store) (order_id : Nat) : ViewResult :=
  match store.orders.find? (fun o => o.id == order_id) with
  | none => { store := store, writes := [], response := ViewResponse.notFound }
  | some order =>
      let store' : Store := { store with
        orders := store.orders.map (fun o =>
          if o.id == order.id then
            applyUpdateFields o { order with status := advance order.status } ["status"]
          else o) }
      { store := store'
        writes := [{ pk := order.id, update_fields := ["status"] }]
        response := (view_orders_view caller store').response }
/-! ### Helper lemmas -/

theorem applyUpdateFields_status_only (db mem : Order) :
    applyUpdateFields db mem ["status"] = { db with status := mem.status } := by
  simp [applyUpdateFields]

theorem find?_id_eq_of_mem (l : List Order) (o : Order) (oid : Nat)
    (hmem : o ∈ l) (hid : o.id = oid)
    (huniq : l.Pairwise (fun a b => a.id ≠ b.id)) :
    l.find? (fun x => x.id == oid) = some o := by
  induction l with
  | nil => cases hmem
  | cons h t ih =>
      rcases List.pairwise_cons.mp huniq with ⟨hhead, htail⟩
      rcases List.mem_cons.mp hmem with rfl | hmemt
      · exact List.find?_cons_of_pos _ (by simp [hid])
      · have hne : h.id ≠ oid := by
          intro hcontra
          exact hhead o hmemt (hcontra.trans hid.symm)
        rw [List.find?_cons_of_neg _ (by simp [hne])]
        exact ih hmemt htail

theorem change_status_orders_eq (caller : Option AuthUser) (store : Store)
    (order_id : Nat) (order : Order)
    (hfind : store.orders.find? (fun o => o.id == order_id) = some order) :
    (change_status_view caller store order_id).store.orders =
      store.orders.map (fun o =>
        if o.id = order.id then { o with status := advance order.status } else o) := by
  unfold change_status_view
  rw [hfind]
  simp only
  apply List.map_congr_left
  intro o _
  by_cases h : o.id = order.id <;> simp [h, applyUpdateFields_status_only]

theorem change_status_writes_eq (caller : Option AuthUser) (store : Store)
    (order_id : Nat) (order : Order)
    (hfind : store.orders.find? (fun o => o.id == order_id) = some order) :
    (change_status_view caller store order_id).writes =
      [{ pk := order.id, update_fields := ["status"] }] := by
  unfold change_status_view
  rw [hfind]

theorem change_status_tables_eq (caller : Option AuthUser) (store : Store)
    (order_id : Nat) (order : Order)
    (hfind : store.orders.find? (fun o => o.id == order_id) = some order) :
    (change_status_view caller store order_id).store.shops = store.shops
    ∧ (change_status_view caller store order_id).store.bouquets = store.bouquets
    ∧ (change_status_view caller store order_id).store.catalog = store.catalog := by
  unfold change_status_view
  rw [hfind]
  exact ⟨rfl, rfl, rfl⟩
/-! ### Concrete fixtures used by witness theorems -/

def sampleOrder (id : Nat) (st : Status) : Order :=
  { id := id, bouquet := 1, price := 100, client_name := "Иван".toList,
    phone := "+79990000000".toList, delivery_address := "Мира 10".toList,
    delivery_window := none, email := [], paid := true, comment := [],
    created_at := 0, composed_at := none, delivered_at := none,
    status := st, florist := none, courier := none }

def sampleStore (orders : List Order) : Store :=
  { shops := [], bouquets := [], catalog := [], orders := orders }

def wStore : Store := sampleStore [sampleOrder 2 Status.delivered, sampleOrder 1 Status.composing]

def wOrder : Order := sampleOrder 1 Status.composing

/-! ### Claim theorems: the status-change view -/

/-- C2: for an order present in the store, `change_status` rewrites its status
exactly by the advance table (created→composing, composing→composed, and
composed, delivering, delivered, cancelled each unchanged), and no other
status value is ever produced. -/
theorem change_status_follows_table (caller : Option AuthUser) (store : Store)
    (order_id : Nat) (order : Order)
    (hmem : order ∈ store.orders) (hid : order.id = order_id)
    (huniq : store.orders.Pairwise (fun a b => a.id ≠ b.id)) :
    ∃ newStatus : Status,
      (change_status_view caller store order_id).store.orders =
        store.orders.map (fun o =>
          if o.id = order.id then { o with status := newStatus } else o)
      ∧ (order.status = Status.created → newStatus = Status.composing)
      ∧ (order.status = Status.composing → newStatus = Status.composed)
      ∧ (order.status = Status.composed → newStatus = Status.composed)
      ∧ (order.status = Status.delivering → newStatus = Status.delivering)
      ∧ (order.status = Status.delivered → newStatus = Status.delivered)
      ∧ (order.status = Status.cancelled → newStatus = Status.cancelled) := by
  have hfind := find?_id_eq_of_mem store.orders order order_id hmem hid huniq
  refine ⟨advance order.status,
    change_status_orders_eq caller store order_id order hfind,
    ?_, ?_, ?_, ?_, ?_, ?_⟩ <;> (intro h; rw [h]; rfl)

theorem change_status_follows_table_witness :
    ∃ newStatus : Status,
      (change_status_view none (sampleStore [sampleOrder 1 Status.created]) 1).store.orders =
        (sampleStore [sampleOrder 1 Status.created]).orders.map (fun o =>
          if o.id = (sampleOrder 1 Status.created).id then { o with status := newStatus } else o)
      ∧ ((sampleOrder 1 Status.created).status = Status.created → newStatus = Status.composing)
      ∧ ((sampleOrder 1 Status.created).status = Status.composing → newStatus = Status.composed)
      ∧ ((sampleOrder 1 Status.created).status = Status.composed → newStatus = Status.composed)
      ∧ ((sampleOrder 1 Status.created).status = Status.delivering → newStatus = Status.delivering)
      ∧ ((sampleOrder 1 Status.created).status = Status.delivered → newStatus = Status.delivered)
      ∧ ((sampleOrder 1 Status.created).status = Status.cancelled → newStatus = Status.cancelled) :=
  change_status_follows_table none (sampleStore [sampleOrder 1 Status.created]) 1
    (sampleOrder 1 Status.created) (by decide) (by decide) (by decide)

/-- C3: `change_status` on an id with no matching order answers NotFound and
leaves the store exactly as it was, issuing no write. -/
theorem change_status_not_found (caller : Option AuthUser) (store : Store) (order_id : Nat)
    (habsent : ∀ o ∈ store.orders, o.id ≠ order_id) :
    change_status_view caller store order_id =
      { store := store, writes := [], response := ViewResponse.notFound } := by
  have hfind : store.orders.find? (fun o => o.id == order_id) = none :=
    List.find?_eq_none.mpr (fun o ho => by simpa using habsent o ho)
  unfold change_status_view
  rw [hfind]

theorem change_status_not_found_witness :
    change_status_view none (sampleStore [sampleOrder 1 Status.created]) 2 =
      { store := sampleStore [sampleOrder 1 Status.created], writes := [],
        response := ViewResponse.notFound } :=
  change_status_not_found none (sampleStore [sampleOrder 1 Status.created]) 2 (by decide)

/-- C4: a successful `change_status` touches only the status column: the
shop, bouquet and catalog tables are unchanged, the order list keeps its
length, any order with a different id is fully unchanged, and every
non-status field of every stored order (including `composed_at` and
`delivered_at`) keeps its value. -/
theorem change_status_frame (caller : Option AuthUser) (store : Store)
    (order_id : Nat) (order : Order) (i : Nat)
    (hmem : order ∈ store.orders) (hid : order.id = order_id)
    (huniq : store.orders.Pairwise (fun a b => a.id ≠ b.id))
    (h1 : i < store.orders.length)
    (h2 : i < (change_status_view caller store order_id).store.orders.length) :
    (change_status_view caller store order_id).store.shops = store.shops
    ∧ (change_status_view caller store order_id).store.bouquets = store.bouquets
    ∧ (change_status_view caller store order_id).store.catalog = store.catalog
    ∧ (change_status_view caller store order_id).store.orders.length = store.orders.length
    ∧ ((store.orders.get ⟨i, h1⟩).id ≠ order.id →
        (change_status_view caller store order_id).store.orders.get ⟨i, h2⟩ =
          store.orders.get ⟨i, h1⟩)
    ∧ ((change_status_view caller store order_id).store.orders.get ⟨i, h2⟩).id =
        (store.orders.get ⟨i, h1⟩).id
    ∧ ((change_status_view caller store order_id).store.orders.get ⟨i, h2⟩).bouquet =
        (store.orders.get ⟨i, h1⟩).bouquet
    ∧ ((change_status_view caller store order_id).store.orders.get ⟨i, h2⟩).price =
        (store.orders.get ⟨i, h1⟩).price
    ∧ ((change_status_view caller store order_id).store.orders.get ⟨i, h2⟩).client_name =
        (store.orders.get ⟨i, h1⟩).client_name
    ∧ ((change_status_view caller store order_id).store.orders.get ⟨i, h2⟩).phone =
        (store.orders.get ⟨i, h1⟩).phone
    ∧ ((change_status_view caller store order_id).store.orders.get ⟨i, h2⟩).delivery_address =
        (store.orders.get ⟨i, h1⟩).delivery_address
    ∧ ((change_status_view caller store order_id).store.orders.get ⟨i, h2⟩).delivery_window =
        (store.orders.get ⟨i, h1⟩).delivery_window
    ∧ ((change_status_view caller store order_id).store.orders.get ⟨i, h2⟩).email =
        (store.orders.get ⟨i, h1⟩).email
    ∧ ((change_status_view caller store order_id).store.orders.get ⟨i, h2⟩).paid =
        (store.orders.get ⟨i, h1⟩).paid
    ∧ ((change_status_view caller store order_id).store.orders.get ⟨i, h2⟩).comment =
        (store.orders.get ⟨i, h1⟩).comment
    ∧ ((change_status_view caller store order_id).store.orders.get ⟨i, h2⟩).created_at =
        (store.orders.get ⟨i, h1⟩).created_at
    ∧ ((change_status_view caller store order_id).store.orders.get ⟨i, h2⟩).composed_at =
        (store.orders.get ⟨i, h1⟩).composed_at
    ∧ ((change_status_view caller store order_id).store.orders.get ⟨i, h2⟩).delivered_at =
        (store.orders.get ⟨i, h1⟩).delivered_at
    ∧ ((change_status_view caller store order_id).store.orders.get ⟨i, h2⟩).florist =
        (store.orders.get ⟨i, h1⟩).florist
    ∧ ((change_status_view caller store order_id).store.orders.get ⟨i, h2⟩).courier =
        (store.orders.get ⟨i, h1⟩).courier := by
  have hfind := find?_id_eq_of_mem store.orders order order_id hmem hid huniq
  obtain ⟨hs, hb, hc⟩ := change_status_tables_eq caller store order_id order hfind
  have ho := change_status_orders_eq caller store order_id order hfind
  have hlen : (change_status_view caller store order_id).store.orders.length =
      store.orders.length := by rw [ho, List.length_map]
  have key : (change_status_view caller store order_id).store.orders.get ⟨i, h2⟩ =
      (if (store.orders.get ⟨i, h1⟩).id = order.id then
        { store.orders.get ⟨i, h1⟩ with status := advance order.status }
      else store.orders.get ⟨i, h1⟩) := by
    rw [List.get_of_eq ho ⟨i, h2⟩]
    simp [List.get_eq_getElem, List.getElem_map]
  simp only [List.get_eq_getElem] at key
  by_cases hcase : store.orders[i].id = order.id <;>
    simp [hs, hb, hc, hlen, key, hcase]

theorem change_status_frame_witness :
    (change_status_view none wStore 1).store.shops = wStore.shops
    ∧ (change_status_view none wStore 1).store.bouquets = wStore.bouquets
    ∧ (change_status_view none wStore 1).store.catalog = wStore.catalog
    ∧ (change_status_view none wStore 1).store.orders.length = wStore.orders.length
    ∧ ((wStore.orders.get ⟨1, by decide⟩).id ≠ wOrder.id →
        (change_status_view none wStore 1).store.orders.get ⟨1, by decide⟩ =
          wStore.orders.get ⟨1, by decide⟩)
    ∧ ((change_status_view none wStore 1).store.orders.get ⟨1, by decide⟩).id =
        (wStore.orders.get ⟨1, by decide⟩).id
    ∧ ((change_status_view none wStore 1).store.orders.get ⟨1, by decide⟩).bouquet =
        (wStore.orders.get ⟨1, by decide⟩).bouquet
    ∧ ((change_status_view none wStore 1).store.orders.get ⟨1, by decide⟩).price =
        (wStore.orders.get ⟨1, by decide⟩).price
    ∧ ((change_status_view none wStore 1).store.orders.get ⟨1, by decide⟩).client_name =
        (wStore.orders.get ⟨1, by decide⟩).client_name
    ∧ ((change_status_view none wStore 1).store.orders.get ⟨1, by decide⟩).phone =
        (wStore.orders.get ⟨1, by decide⟩).phone
    ∧ ((change_status_view none wStore 1).store.orders.get ⟨1, by decide⟩).delivery_address =
        (wStore.orders.get ⟨1, by decide⟩).delivery_address
    ∧ ((change_status_view none wStore 1).store.orders.get ⟨1, by decide⟩).delivery_window =
        (wStore.orders.get ⟨1, by decide⟩).delivery_window
    ∧ ((change_status_view none wStore 1).store.orders.get ⟨1, by decide⟩).email =
        (wStore.orders.get ⟨1, by decide⟩).email
    ∧ ((change_status_view none wStore 1).store.orders.get ⟨1, by decide⟩).paid =
        (wStore.orders.get ⟨1, by decide⟩).paid
    ∧ ((change_status_view none wStore 1).store.orders.get ⟨1, by decide⟩).comment =
        (wStore.orders.get ⟨1, by decide⟩).comment
    ∧ ((change_status_view none wStore 1).store.orders.get ⟨1, by decide⟩).created_at =
        (wStore.orders.get ⟨1, by decide⟩).created_at
    ∧ ((change_status_view none wStore 1).store.orders.get ⟨1, by decide⟩).composed_at =
        (wStore.orders.get ⟨1, by decide⟩).composed_at
    ∧ ((change_status_view none wStore 1).store.orders.get ⟨1, by decide⟩).delivered_at =
        (wStore.orders.get ⟨1, by decide⟩).delivered_at
    ∧ ((change_status_view none wStore 1).store.orders.get ⟨1, by decide⟩).florist =
        (wStore.orders.get ⟨1, by decide⟩).florist
    ∧ ((change_status_view none wStore 1).store.orders.get ⟨1, by decide⟩).courier =
        (wStore.orders.get ⟨1, by decide⟩).courier :=
  change_status_frame none wStore 1 wOrder 1 (by decide) (by decide) (by decide)
    (by decide) (by decide)

/-- C10: whenever the lookup succeeds, `change_status` issues exactly one row
write restricted to the status column, even for the no-op statuses where the
advance table leaves the status value unchanged. -/
theorem change_status_always_writes (caller : Option AuthUser) (store : Store)
    (order_id : Nat) (order : Order)
    (hmem : order ∈ store.orders) (hid : order.id = order_id)
    (huniq : store.orders.Pairwise (fun a b => a.id ≠ b.id)) :
    (change_status_view caller store order_id).writes =
      [{ pk := order_id, update_fields := ["status"] }] := by
  have hfind := find?_id_eq_of_mem store.orders order order_id hmem hid huniq
  rw [change_status_writes_eq caller store order_id order hfind, hid]

theorem change_status_always_writes_witness :
    (change_status_view none (sampleStore [sampleOrder 5 Status.composed]) 5).writes =
      [{ pk := 5, update_fields := ["status"] }] :=
  change_status_always_writes none (sampleStore [sampleOrder 5 Status.composed]) 5
    (sampleOrder 5 Status.composed) (by decide) (by decide) (by decide)
/-! ### Claim theorems: access gate -/

def c1Store : Store := sampleStore [sampleOrder 1 Status.created]

/-- C1 (code defect witnessed): the two decorated views redirect an
unauthenticated or non-staff caller to login and touch nothing, and
`change_status` also ends in the login redirect (through the decorated
listing it renders) — but, having no decorator of its own, it still runs
the lookup and the save first: for an unauthenticated caller it issues the
status write and the stored order really changes. -/
theorem gate_bypass_change_status :
    view_availability_view none c1Store =
      { store := c1Store, writes := [], response := ViewResponse.redirectLogin }
    ∧ view_orders_view none c1Store =
      { store := c1Store, writes := [], response := ViewResponse.redirectLogin }
    ∧ view_availability_view (some { is_staff := false }) c1Store =
      { store := c1Store, writes := [], response := ViewResponse.redirectLogin }
    ∧ view_orders_view (some { is_staff := false }) c1Store =
      { store := c1Store, writes := [], response := ViewResponse.redirectLogin }
    ∧ (change_status_view none c1Store 1).response = ViewResponse.redirectLogin
    ∧ (change_status_view none c1Store 1).writes = [{ pk := 1, update_fields := ["status"] }]
    ∧ (change_status_view none c1Store 1).store.orders.map (fun o => o.status) = [Status.composing]
    ∧ (change_status_view none c1Store 1).store ≠ c1Store := by
  decide

/-! ### Claim theorems: the orders listing -/

/-- C6: the listing query returns exactly the orders whose status is
created, composing or composed; later and terminal statuses never appear. -/
theorem list_active_orders_mem (orders : List Order) (o : Order) :
    o ∈ list_active_orders orders ↔
      o ∈ orders ∧ (o.status = Status.created ∨ o.status = Status.composing
        ∨ o.status = Status.composed) := by
  unfold list_active_orders
  rw [List.mem_mergeSort, List.mem_filter]
  simp [activeStatuses]

theorem statusIndex_inj {s t : Status} (hs : s ∈ activeStatuses) (ht : t ∈ activeStatuses)
    (h : statusIndex s = statusIndex t) : s = t := by
  cases s <;> cases t <;> revert hs ht h <;> decide

/-- C7: the listing is sorted by the lexicographic key (position of the
status in the fixed tuple, then id): an earlier workflow stage always comes
first, and two orders of the same status appear in ascending id order. -/
theorem list_active_orders_sorted (orders : List Order) :
    (list_active_orders orders).Pairwise (fun a b =>
      statusIndex a.status < statusIndex b.status ∨ (a.status = b.status ∧ a.id ≤ b.id)) := by
  have htrans : ∀ a b c : Order, orderLe a b = true → orderLe b c = true →
      orderLe a c = true := by
    intro a b c h1 h2
    simp only [orderLe, Bool.or_eq_true, Bool.and_eq_true, decide_eq_true_eq,
      beq_iff_eq] at h1 h2 ⊢
    omega
  have htotal : ∀ a b : Order, (orderLe a b || orderLe b a) = true := by
    intro a b
    simp only [orderLe, Bool.or_eq_true, Bool.and_eq_true, decide_eq_true_eq, beq_iff_eq]
    omega
  have hsorted := List.sorted_mergeSort htrans htotal
    (orders.filter (fun o => activeStatuses.contains o.status))
  unfold list_active_orders
  refine hsorted.imp_of_mem ?_
  intro a b ha hb hab
  have ha' : a.status ∈ activeStatuses := by
    have := (List.mem_filter.mp (List.mem_mergeSort.mp ha)).2
    simpa using this
  have hb' : b.status ∈ activeStatuses := by
    have := (List.mem_filter.mp (List.mem_mergeSort.mp hb)).2
    simpa using this
  simp only [orderLe, Bool.or_eq_true, Bool.and_eq_true, decide_eq_true_eq,
    beq_iff_eq] at hab
  rcases hab with h | ⟨heq, hle⟩
  · exact Or.inl h
  · exact Or.inr ⟨statusIndex_inj ha' hb' heq, hle⟩
/-! ### Helper lemmas: string order and the availability matrix -/

theorem strLe_trans : ∀ a b c : Str, strLe a b = true → strLe b c = true → strLe a c = true := by
  intro a
  induction a with
  | nil => intro b c _ _; rfl
  | cons x xs ih =>
      intro b c h1 h2
      cases b with
      | nil => simp [strLe] at h1
      | cons y ys =>
          cases c with
          | nil => simp [strLe] at h2
          | cons z zs =>
              simp only [strLe] at h1 h2 ⊢
              rcases lt_trichotomy x y with hxy | hxy | hxy
              · rcases lt_trichotomy y z with hyz | hyz | hyz
                · simp [lt_trans hxy hyz]
                · subst hyz; simp [hxy]
                · rw [if_neg (lt_asymm hyz), if_pos hyz] at h2; cases h2
              · subst hxy
                rcases lt_trichotomy x z with hxz | hxz | hxz
                · simp [hxz]
                · subst hxz
                  simp only [lt_irrefl, if_false] at h1 h2 ⊢
                  exact ih ys zs h1 h2
                · rw [if_neg (lt_asymm hxz), if_pos hxz] at h2; cases h2
              · rw [if_neg (lt_asymm hxy), if_pos hxy] at h1; cases h1

theorem strLe_total : ∀ a b : Str, (strLe a b || strLe b a) = true := by
  intro a
  induction a with
  | nil => intro b; simp [strLe]
  | cons x xs ih =>
      intro b
      cases b with
      | nil => simp [strLe]
      | cons y ys =>
          simp only [strLe]
          rcases lt_trichotomy x y with h | h | h
          · simp [h]
          · subst h
            simp only [lt_irrefl, if_false]
            exact ih ys
          · simp [h, lt_asymm h]

theorem view_availability_row (store : Store) {b : Bouquet} {avs : List Bool}
    (h : (b, avs) ∈ (view_availability store).bouquets_availability) :
    b ∈ orderedBouquets store ∧
      avs = (orderedShops store).map (fun flower_shop =>
        dictGet (catalog_items store b) flower_shop.id false) := by
  simp only [view_availability] at h
  rcases List.mem_map.mp h with ⟨b', hb', heq⟩
  injection heq with hfst hsnd
  subst hfst
  subst hsnd
  exact ⟨hb', rfl⟩

theorem view_availability_entry (store : Store) {b : Bouquet} {avs : List Bool}
    (h : (b, avs) ∈ (view_availability store).bouquets_availability)
    (i : Nat) (h1 : i < avs.length) (h2 : i < (orderedShops store).length) :
    avs.get ⟨i, h1⟩ =
      dictGet (catalog_items store b) ((orderedShops store).get ⟨i, h2⟩).id false := by
  obtain ⟨-, havs⟩ := view_availability_row store h
  subst havs
  simp [List.get_eq_getElem, List.getElem_map]

theorem dictGet_eq_default (items : List FlowerShopCatalogItem) (key : Nat) (dflt : Bool)
    (h : ∀ item ∈ items, item.flower_shop_id ≠ key) :
    dictGet items key dflt = dflt := by
  unfold dictGet
  have hnone : items.reverse.find? (fun item => item.flower_shop_id == key) = none :=
    List.find?_eq_none.mpr (fun x hx => by simpa using h x (List.mem_reverse.mp hx))
  rw [hnone]

theorem dictGet_eq_availability (items : List FlowerShopCatalogItem) (key : Nat) (dflt : Bool)
    (item : FlowerShopCatalogItem) (hmem : item ∈ items) (hkey : item.flower_shop_id = key)
    (huniq : ∀ other ∈ items, other.flower_shop_id = key → other = item) :
    dictGet items key dflt = item.availability := by
  unfold dictGet
  have hsome : (items.reverse.find? (fun it => it.flower_shop_id == key)).isSome := by
    rw [List.find?_isSome]
    exact ⟨item, List.mem_reverse.mpr hmem, by simpa using hkey⟩
  obtain ⟨found, hfound⟩ := Option.isSome_iff_exists.mp hsome
  rw [hfound]
  have hfk : found.flower_shop_id = key := by simpa using List.find?_some hfound
  have hfm : found ∈ items := List.mem_reverse.mp (List.mem_of_find?_eq_some hfound)
  rw [huniq found hfm hfk]

theorem strStartsWith_append : ∀ (p s : Str), strStartsWith (p ++ s) p = true
  | [], _ => by simp [strStartsWith]
  | c :: cs, s => by simp [strStartsWith, strStartsWith_append cs s]

/-! ### Claim theorems: the availability matrix -/

/-- C5: the availability matrix is rectangular and positionally aligned:
every row's boolean list has one entry per shop, entry `i` is computed from
the shop at position `i`, the rows are the bouquets ordered by name
ascending, and the shops sequence is ordered by address ascending. -/
theorem availability_matrix_rectangular (store : Store) (b : Bouquet) (avs : List Bool)
    (i : Nat)
    (hrow : (b, avs) ∈ (view_availability store).bouquets_availability)
    (h1 : i < avs.length) (h2 : i < (orderedShops store).length) :
    ((view_availability store).bouquets_availability.map Prod.fst = orderedBouquets store)
    ∧ (orderedShops store).Pairwise (fun x y => strLe x.address y.address = true)
    ∧ (orderedBouquets store).Pairwise (fun x y => strLe x.name y.name = true)
    ∧ (view_availability store).shops_addresses.length = (orderedShops store).length
    ∧ avs.length = (view_availability store).shops_addresses.length
    ∧ avs.get ⟨i, h1⟩ =
        dictGet (catalog_items store b) ((orderedShops store).get ⟨i, h2⟩).id false := by
  obtain ⟨hb, havs⟩ := view_availability_row store hrow
  refine ⟨?_, ?_, ?_, ?_, ?_, view_availability_entry store hrow i h1 h2⟩
  · simp [view_availability, List.map_map, Function.comp_def]
  · exact List.sorted_mergeSort
      (fun x y z hxy hyz => strLe_trans x.address y.address z.address hxy hyz)
      (fun x y => strLe_total x.address y.address) store.shops
  · exact List.sorted_mergeSort
      (fun x y z hxy hyz => strLe_trans x.name y.name z.name hxy hyz)
      (fun x y => strLe_total x.name y.name) store.bouquets
  · simp [view_availability, orderedShops]
  · subst havs
    simp [view_availability, orderedShops]

/-- C8: a missing catalog row for (shop, bouquet) makes the matrix entry
`false`, and an existing (unique) catalog row makes the entry equal to that
row's availability flag. -/
theorem availability_entry_default (store : Store) (b : Bouquet) (avs : List Bool) (i : Nat)
    (hrow : (b, avs) ∈ (view_availability store).bouquets_availability)
    (h1 : i < avs.length) (h2 : i < (orderedShops store).length) :
    ((∀ item ∈ store.catalog,
        ¬(item.flower_shop_id = ((orderedShops store).get ⟨i, h2⟩).id
          ∧ item.bouquet_id = b.id)) →
      avs.get ⟨i, h1⟩ = false)
    ∧ (∀ item ∈ store.catalog,
        item.flower_shop_id = ((orderedShops store).get ⟨i, h2⟩).id →
        item.bouquet_id = b.id →
        (∀ other ∈ store.catalog, other.flower_shop_id = item.flower_shop_id →
          other.bouquet_id = item.bouquet_id → other = item) →
        avs.get ⟨i, h1⟩ = item.availability) := by
  have hentry := view_availability_entry store hrow i h1 h2
  constructor
  · intro hnone
    rw [hentry]
    apply dictGet_eq_default
    intro item hitem
    have hmf := List.mem_filter.mp hitem
    intro hcontra
    exact hnone item hmf.1 ⟨hcontra, by simpa using hmf.2⟩
  · intro item hitem hshop hbq huniq
    rw [hentry]
    apply dictGet_eq_availability _ _ _ item
    · exact List.mem_filter.mpr ⟨hitem, by simpa using hbq⟩
    · exact hshop
    · intro other hother hokey
      have hmf := List.mem_filter.mp hother
      exact huniq other hmf.1 (hokey.trans hshop.symm)
        ((by simpa using hmf.2 : other.bouquet_id = b.id).trans hbq.symm)

/-- C9: the shop display label strips the exact city literal (then strips
surrounding whitespace) when the address starts with it, and otherwise
leaves the address verbatim. -/
theorem shopLabel_spec :
    (∀ rest : Str, shopLabel (cityLit ++ rest) = pyStrip rest)
    ∧ ∀ address : Str, strStartsWith address cityLit = false → shopLabel address = address := by
  constructor
  · intro rest
    unfold shopLabel
    rw [if_pos (strStartsWith_append cityLit rest)]
    congr 1
  · intro address h
    unfold shopLabel
    rw [if_neg (by simp [h])]

theorem shopLabel_spec_witness :
    shopLabel (cityLit ++ " Ленина 1".toList) = pyStrip " Ленина 1".toList
    ∧ shopLabel "Красноярская 5".toList = "Красноярская 5".toList :=
  ⟨shopLabel_spec.1 " Ленина 1".toList, shopLabel_spec.2 "Красноярская 5".toList (by decide)⟩
/-! ### Concrete fixtures and witnesses for the availability claims -/

def aBouquet : Bouquet :=
  { id := 7, name := "Розы".toList, description := [], price := 1500, is_recommended := false }

def aItem : FlowerShopCatalogItem :=
  { id := 1, flower_shop_id := 1, bouquet_id := 7, availability := true }

def aStore : Store :=
  { shops := [{ id := 1, address := "Красноярск, Ленина 1".toList, phone := [] },
              { id := 2, address := "Абакан, Мира 2".toList, phone := [] }],
    bouquets := [aBouquet],
    catalog := [aItem],
    orders := [] }

unseal List.merge List.mergeSort in
theorem availability_matrix_rectangular_witness :
    ((view_availability aStore).bouquets_availability.map Prod.fst = orderedBouquets aStore)
    ∧ (orderedShops aStore).Pairwise (fun x y => strLe x.address y.address = true)
    ∧ (orderedBouquets aStore).Pairwise (fun x y => strLe x.name y.name = true)
    ∧ (view_availability aStore).shops_addresses.length = (orderedShops aStore).length
    ∧ [false, true].length = (view_availability aStore).shops_addresses.length
    ∧ [false, true].get ⟨0, by decide⟩ =
        dictGet (catalog_items aStore aBouquet) ((orderedShops aStore).get ⟨0, by decide⟩).id
          false :=
  availability_matrix_rectangular aStore aBouquet [false, true] 0 (by decide) (by decide)
    (by decide)

unseal List.merge List.mergeSort in
theorem availability_entry_default_witness :
    ([false, true].get ⟨0, by decide⟩ = false)
    ∧ ([false, true].get ⟨1, by decide⟩ = aItem.availability) :=
  ⟨(availability_entry_default aStore aBouquet [false, true] 0 (by decide) (by decide)
      (by decide)).1 (by decide),
   (availability_entry_default aStore aBouquet [false, true] 1 (by decide) (by decide)
      (by decide)).2 aItem (by decide) (by decide) (by decide) (by decide)⟩
